import Mathlib

/-!
Verification development for the free-shipping-bar Shopify app (`main.py`).

The Python source is shallowly embedded: every handler becomes a pure Lean
function over explicit state (the in-memory OAuth state cache and the two
database tables), machine floating point is modelled exactly as the subset of
the rationals representable as IEEE-754 binary64 values with round-to-nearest,
ties-to-even, and fallible Python code returns `Except`.
-/

namespace FreeShipBar

/-! ### Exact model of IEEE-754 binary64 ("double") arithmetic

Python floats are binary64.  Every finite double is a rational, so we model a
double as the rational it denotes, and the decimal-literal-to-double and
multiplication steps as exact rational rounding to 53 significant bits with
round-to-nearest, ties-to-even.  Exponent overflow and subnormals are outside
the range any threshold input reaches and are not modelled. -/

/-- Two to an integer power, as a rational (interprets dyadic exponents). -/
def pow2z (e : ℤ) : ℚ :=
  if 0 ≤ e then ((2 ^ e.toNat : ℕ) : ℚ) else 1 / ((2 ^ (-e).toNat : ℕ) : ℚ)

/-- Round a rational to the nearest integer, ties to even — the
specification-side statement of Python's built-in `round` (Python rounds the
exact binary value the float denotes). -/
def roundHalfEvenInt (x : ℚ) : ℤ :=
  if 1 / 2 < x - (⌊x⌋ : ℚ) then ⌊x⌋ + 1
  else if x - (⌊x⌋ : ℚ) < 1 / 2 then ⌊x⌋
  else if ⌊x⌋ % 2 = 0 then ⌊x⌋ else ⌊x⌋ + 1

/-- Bit length of a natural number (the fuel, an upper bound on the number of
binary digits of any quantity in range, keeps the recursion structural so the
kernel can evaluate it). -/
def bitLenAux : ℕ → ℕ → ℕ
  | 0, _ => 0
  | f + 1, n => if n = 0 then 0 else bitLenAux f (n / 2) + 1

/-- Bit length: `2 ^ (bitLen n - 1) ≤ n < 2 ^ bitLen n` for `n ≠ 0`. -/
def bitLen (n : ℕ) : ℕ := bitLenAux 4096 n

/-- An exact decimal literal `m * 10 ^ (-k)`, as written in JSON text
(`49.999` is `⟨49999, 3⟩`). -/
structure Decimal where
  m : ℤ
  k : ℕ
deriving DecidableEq, Repr

/-- A dyadic rational `m * 2 ^ e`: the exact value of a finite binary64. -/
structure Dbl where
  m : ℤ
  e : ℤ
deriving DecidableEq, Repr

/-- The exact rational value a dyadic denotes. -/
def Dbl.toRat (d : Dbl) : ℚ := (d.m : ℚ) * pow2z d.e

/-- Strip factors of two off the mantissa (fuel-bounded, structural). -/
def dnormAux : ℕ → ℤ → ℤ → ℤ × ℤ
  | 0, m, e => (m, e)
  | f + 1, m, e => if m % 2 = 0 ∧ m ≠ 0 then dnormAux f (m / 2) (e + 1) else (m, e)

/-- Canonical dyadic (zero, or an odd mantissa), so that value equality of
doubles is structural equality. -/
def mkDbl (m e : ℤ) : Dbl :=
  if m = 0 then ⟨0, 0⟩ else ⟨(dnormAux 4096 m e).1, (dnormAux 4096 m e).2⟩

/-- Round the positive rational `a / b` to 53 significant bits, round to
nearest with ties to even, returned as mantissa and exponent.  This is the
IEEE-754 binary64 rounding step in the normal range (exponent overflow and
subnormals are far outside any value this app computes and are unmodelled). -/
def roundPos53 (a b : ℕ) : ℤ × ℤ :=
  let c : ℤ := (bitLen a : ℤ) - (bitLen b : ℤ)
  let lt2c : Bool := if 0 ≤ c then a < b * 2 ^ c.toNat else a * 2 ^ (-c).toNat < b
  let fl : ℤ := if lt2c then c - 1 else c
  let e : ℤ := fl - 52
  let N : ℕ := a * 2 ^ (-e).toNat
  let D : ℕ := b * 2 ^ e.toNat
  let q : ℕ := N / D
  let r : ℕ := N % D
  let m : ℕ := if D < 2 * r then q + 1 else if 2 * r < D then q else if q % 2 = 0 then q else q + 1
  ((m : ℤ), e)

/-- The binary64 value nearest to a decimal literal: round the magnitude to
53 significant bits, ties to even.  This is both what the JSON decoder hands
Python and the value `float()` holds. -/
def toDouble (d : Decimal) : Dbl :=
  if d.m = 0 then ⟨0, 0⟩
  else
    let p := roundPos53 d.m.natAbs (10 ^ d.k)
    if 0 < d.m then mkDbl p.1 p.2 else mkDbl (-p.1) p.2

/-- Double multiplication: round the exact product once (IEEE-correct). -/
def fmul (x y : Dbl) : Dbl :=
  if x.m = 0 ∨ y.m = 0 then ⟨0, 0⟩
  else
    let P : ℤ := x.m * y.m
    let p := roundPos53 P.natAbs 1
    if 0 < P then mkDbl p.1 (p.2 + x.e + y.e) else mkDbl (-p.1) (p.2 + x.e + y.e)

/-- The exact double `100.0` (the literal `100` in `threshold * 100`). -/
def dbl100 : Dbl := ⟨25, 2⟩

/-- Python `round(float)` on a finite double (where it never raises): the
nearest integer to the exact dyadic value, ties to even (`Int./` and `Int.%`
are Euclidean here, so this is floor division plus a half-ulp comparison).
The special float values raise instead — see `pyRoundPy`. -/
def pyRound (d : Dbl) : ℤ :=
  if 0 ≤ d.e then d.m * 2 ^ d.e.toNat
  else
    let D : ℤ := 2 ^ (-d.e).toNat
    let q : ℤ := d.m / D
    let r : ℤ := d.m % D
    if D < 2 * r then q + 1
    else if 2 * r < D then q
    else if q % 2 = 0 then q else q + 1

/-- Overflow test for a rounded magnitude `m * 2 ^ e` with `0 ≤ m ≤ 2 ^ 53`:
binary64 rounding overflows to infinity exactly when the magnitude, rounded
with unbounded exponent range, reaches `2 ^ 1024`.  (With a 53-bit mantissa
that cannot happen at a negative exponent; the comparison is done in `ℕ`,
where the kernel evaluates large powers directly.) -/
def dblOverflows (m e : ℤ) : Bool :=
  if e < 0 then false else 2 ^ 1024 ≤ m.natAbs * 2 ^ e.toNat

/-- A Python float: a finite binary64, an infinity, or NaN. -/
inductive PyFloat where
  | finite (d : Dbl)
  | inf (neg : Bool)
  | nan
deriving DecidableEq, Repr

/-- The Python float a decimal literal produces: the 53-bit rounding
(`toDouble`) when the result is in range, otherwise an infinity.  (A JSON
*integer* literal of this size makes `float()` raise `OverflowError` at the
conversion itself instead of yielding an infinity; the model reaches the
same uncaught `OverflowError` one step later, at `round`, and the handler
catches neither, so the observable outcome coincides.) -/
def toPyFloat (d : Decimal) : PyFloat :=
  if d.m = 0 then .finite ⟨0, 0⟩
  else
    let p := roundPos53 d.m.natAbs (10 ^ d.k)
    if dblOverflows p.1 p.2 then .inf (decide (d.m < 0))
    else .finite (toDouble d)

/-- Double multiplication on Python floats: IEEE special-value rules for
NaN and the infinities, and on finite arguments one correctly rounded
multiplication (`fmul`) that overflows to an infinity past the binary64
range. -/
def fmulPy (x y : PyFloat) : PyFloat :=
  match x, y with
  | .nan, _ => .nan
  | _, .nan => .nan
  | .inf nx, .inf ny => .inf (nx != ny)
  | .inf nx, .finite d => if d.m = 0 then .nan else .inf (nx != decide (d.m < 0))
  | .finite d, .inf ny => if d.m = 0 then .nan else .inf (decide (d.m < 0) != ny)
  | .finite a, .finite b =>
      if a.m = 0 ∨ b.m = 0 then .finite ⟨0, 0⟩
      else
        let p := roundPos53 (a.m * b.m).natAbs 1
        if dblOverflows p.1 (p.2 + a.e + b.e) then .inf (decide (a.m * b.m < 0))
        else .finite (fmul a b)

/-- Python exceptions that the `save_settings` body can raise. -/
inductive PyError where
  | typeError (msg : String)
  | valueError (msg : String)
  | attributeError (msg : String)
  | overflowError (msg : String)
deriving DecidableEq, Repr

/-- Python `round` on an arbitrary float: finite values round half-even and
never raise; `round` of an infinity raises `OverflowError` and of NaN raises
`ValueError` (both uncaught in this app, surfacing as a 500). -/
def pyRoundPy : PyFloat → Except PyError ℤ
  | .finite d => .ok (pyRound d)
  | .inf _ => .error (.overflowError "cannot convert float infinity to integer")
  | .nan => .error (.valueError "cannot convert float NaN to integer")

/-! ### JSON values and the bits of Python semantics the handlers use -/

/-- A parsed JSON value, as it appears inside the `payload: dict` of
`save_settings`.  `num` carries the exact decimal value written in the JSON
text; the conversion to the IEEE double that Python actually holds happens in
`pyFloat` below. -/
inductive Json where
  | null
  | bool (b : Bool)
  | num (d : Decimal)
  | str (s : String)
  | arr (elems : List Json)
  | obj (fields : List (String × Json))

/-- Python truthiness (`bool(v)`) for JSON-shaped values: `None`, `False`,
`0`, `""`, `[]` and obj-empty are falsy. -/
def truthy : Json → Bool
  | .null => false
  | .bool b => b
  | .num d => if d.m = 0 then false else true
  | .str s => if s = "" then false else true
  | .arr xs => if xs.isEmpty then false else true
  | .obj fs => if fs.isEmpty then false else true

/-- Python `payload.get(k)`: `None` (here `none`) when the key is absent. -/
def jget (payload : List (String × Json)) (k : String) : Option Json :=
  (payload.find? (fun p => p.1 == k)).map (fun p => p.2)

/-- Python `payload.get(k) or d`: the stored value when present and truthy,
otherwise the fallback `d` (also taken when the key is absent, since
`None` is falsy). -/
def getOr (payload : List (String × Json)) (k : String) (d : Json) : Json :=
  match jget payload k with
  | some v => if truthy v then v else d
  | none => d

/-- Python `payload.get(k) == s` for a string literal `s`: true exactly when
the key holds that string (comparison with `None` or any non-string is
`False`, never an error). -/
def isStrEq (v : Option Json) (s : String) : Bool :=
  match v with
  | some (.str t) => if t = s then true else false
  | _ => false

/-- Boolean success test for `Except` (we avoid the library one to keep the
development self-contained). -/
def exceptOk {ε α : Type} : Except ε α → Bool
  | .ok _ => true
  | .error _ => false

/-! ### Python `float(...)` on JSON values -/

/-- ASCII digit test (`Char.isDigit`, restated over `Char.toNat` so that it
evaluates by kernel reduction). -/
def isDigitChar (c : Char) : Bool := 48 ≤ c.toNat && c.toNat ≤ 57

/-- The whitespace characters Python's `str.strip()` and `float(str)` remove
(space, tab, newline, carriage return, vertical tab, form feed; the app's
inputs contain no other Unicode whitespace). -/
def isPyWs (c : Char) : Bool :=
  c.toNat = 32 || c.toNat = 9 || c.toNat = 10 || c.toNat = 13 || c.toNat = 11 || c.toNat = 12

/-- Python `str.strip()`: drop leading and trailing whitespace. -/
def pyStrip (s : String) : String :=
  String.mk (((s.toList.dropWhile isPyWs).reverse.dropWhile isPyWs).reverse)

/-- Python `str.endswith(suffix)`: the last `len(suffix)` characters equal
the suffix. -/
def strEndsWith (s suffix : String) : Bool :=
  if String.mk (s.toList.drop (s.toList.length - suffix.toList.length)) = suffix then true
  else false

/-- Accumulate a digit string into a natural number; `none` on a non-digit. -/
def digitsValAux : List Char → ℕ → Option ℕ
  | [], acc => some acc
  | c :: cs, acc =>
      if isDigitChar c then digitsValAux cs (acc * 10 + (c.toNat - 48)) else none

/-- The plain decimal forms accepted by Python `float(str)`: optional sign,
digits, optional fractional part, surrounding whitespace.  (Exponent, `inf`,
`nan` and underscore forms also succeed in Python but never occur in this
app's traffic; they are out of scope of this model, which only needs that
non-numeric text raises `ValueError`.) -/
def parseDecString (s : String) : Option Decimal :=
  let cs := (pyStrip s).toList
  let signAndRest : ℤ × List Char :=
    match cs with
    | '-' :: rest => (-1, rest)
    | '+' :: rest => (1, rest)
    | _ => (1, cs)
  let sign := signAndRest.1
  let cs1 := signAndRest.2
  let ip := cs1.takeWhile isDigitChar
  let rest := cs1.dropWhile isDigitChar
  match rest with
  | [] =>
      if ip.isEmpty then none
      else (digitsValAux ip 0).map (fun n => ⟨sign * (n : ℤ), 0⟩)
  | c :: frac =>
      if c = '.' then
        if ip.isEmpty && frac.isEmpty then none
        else if frac.all isDigitChar then
          match digitsValAux ip 0, digitsValAux frac 0 with
          | some n, some f =>
              some ⟨sign * ((n : ℤ) * 10 ^ frac.length + (f : ℤ)), frac.length⟩
          | _, _ => none
        else none
      else none

/-- ASCII-case-insensitive equality of character lists. -/
def eqFoldAscii : List Char → List Char → Bool
  | [], [] => true
  | p :: ps, c :: cs => if p.toLower = c.toLower then eqFoldAscii ps cs else false
  | _, _ => false

/-- Python `float(str)` on the full accepted surface: the plain decimal
forms (to the nearest double, overflowing to an infinity), and the special
spellings `nan`, `inf` and `infinity` (any case, optional sign). -/
def parseFloatStr (s : String) : Option PyFloat :=
  match parseDecString s with
  | some d => some (toPyFloat d)
  | none =>
      let signAndRest : Bool × List Char :=
        match (pyStrip s).toList with
        | '-' :: rest => (true, rest)
        | '+' :: rest => (false, rest)
        | cs => (false, cs)
      if eqFoldAscii "nan".toList signAndRest.2 then some .nan
      else if eqFoldAscii "inf".toList signAndRest.2
          || eqFoldAscii "infinity".toList signAndRest.2 then
        some (.inf signAndRest.1)
      else none

/-- Python `float(v)` for a JSON-shaped value.  A JSON number is parsed by
the decoder to the nearest double — or an infinity when out of the binary64
range — and `float` of a float is the identity, so the net value is
`toPyFloat` of the decimal; a numeric string re-parses the same way
(including the `nan`/`inf` spellings); everything else raises. -/
def pyFloat : Json → Except PyError PyFloat
  | .null => .error (.typeError "float() argument must be a string or a real number, not NoneType")
  | .bool b => .ok (.finite (if b then ⟨1, 0⟩ else ⟨0, 0⟩))
  | .num d => .ok (toPyFloat d)
  | .str s =>
      match parseFloatStr s with
      | some v => .ok v
      | none => .error (.valueError "could not convert string to float")
  | .arr _ => .error (.typeError "float() argument must be a string or a real number, not list")
  | .obj _ => .error (.typeError "float() argument must be a string or a real number, not dict")

/-- Test for a JSON string value (the values `.strip()` accepts). -/
def isStrJson : Json → Bool
  | .str _ => true
  | _ => false

/-- Python `v.strip()`: succeeds only on strings (models `AttributeError`
on any other type). -/
def pyStrStrip : Json → Except PyError String
  | .str s => .ok (pyStrip s)
  | _ => .error (.attributeError "object has no attribute strip")

/-! ### The two database tables -/

/-- A row of the `shops` table. `installed_at` is an abstract timestamp. -/
structure ShopRow where
  access_token : String
  installed_at : ℕ
  uninstalled : Bool
deriving DecidableEq, Repr

/-- A row of the `settings` table, or a fresh in-memory `Settings(shop=shop)`
object.  SQLAlchemy column defaults apply at INSERT, not construction, so a
fresh object's unset attributes are `none` (Python `None`). -/
structure SettingsRow where
  threshold_cents : Option ℤ
  banner_text : Option String
  bg : Option String
  fg : Option String
  position : Option String
  top_text : Option String
  bottom_text : Option String
deriving DecidableEq, Repr

/-- `Settings(shop=shop)`: every column attribute still unset. -/
def freshSettings : SettingsRow :=
  ⟨none, none, none, none, none, none, none⟩

/-- The default banner text: column default of `Settings.banner_text`
(`"You're ${remaining} away from FREE shipping!"`). -/
def defaultBannerText : String :=
  "You\x27re $\x7bremaining\x7d away from FREE shipping!"

/-- Keep a set attribute, else the column default (applied at INSERT/commit).
`top_text` and `bottom_text` are nullable with no default and stay `NULL`. -/
def settingsInsertDefaults (r : SettingsRow) : SettingsRow :=
  { threshold_cents := some (r.threshold_cents.getD 5000)
    banner_text := some (r.banner_text.getD defaultBannerText)
    bg := some (r.bg.getD "#111827")
    fg := some (r.fg.getD "#ffffff")
    position := some (r.position.getD "top")
    top_text := r.top_text
    bottom_text := r.bottom_text }

/-- The settings row the `callback` handler inserts for a new shop. -/
def defaultSettingsRow : SettingsRow := settingsInsertDefaults freshSettings

/-- The persistent store: the `shops` and `settings` tables, keyed by shop
domain (each table has the domain as primary key, so at most one row per
shop). -/
structure Db where
  shops : String → Option ShopRow
  settings : String → Option SettingsRow

/-- Point update of a keyed table. -/
def upd {α : Type} (f : String → Option α) (k : String) (v : α) : String → Option α :=
  fun s => if s = k then some v else f s

/-- A database with no rows. -/
def emptyDb : Db := ⟨fun _ => none, fun _ => none⟩

/-- An HTTP error response raised via `HTTPException(status, detail)`. -/
structure HttpException where
  status : ℕ
  detail : String
deriving DecidableEq, Repr

/-! ### Settings API (`GET /api/settings`, `POST /api/settings`)

Both handlers run behind `require_shopify`, which resolves and authorizes the
shop; the embedding takes the already-authorized shop domain as an argument. -/

/-- Python `x or d` for an optional/nullable string column (`None` and `""`
are falsy). -/
def orStr (v : Option String) (d : String) : String :=
  match v with
  | some s => if s = "" then d else s
  | none => d

/-- Python `x or d` for a nullable integer column (`None` and `0` are
falsy). -/
def orIntNZ (v : Option ℤ) (d : ℤ) : ℤ :=
  match v with
  | some n => if n = 0 then d else n
  | none => d

/-- The JSON document returned by `GET /api/settings`. -/
structure SettingsResponse where
  shop : String
  threshold_cents : ℤ
  banner_text : String
  bg : String
  fg : String
  position : String
  top_text : Option String
  bottom_text : Option String
deriving DecidableEq, Repr

/-- `get_settings`: stored row (or a fresh all-`None` object when absent)
merged with the hard-coded defaults field by field with `or`. -/
def get_settings (db : Db) (shop : String) : SettingsResponse :=
  let s := (db.settings shop).getD freshSettings
  { shop := shop
    threshold_cents := orIntNZ s.threshold_cents 5000
    banner_text := orStr s.banner_text defaultBannerText
    bg := orStr s.bg "#111827"
    fg := orStr s.fg "#ffffff"
    position := orStr s.position "top"
    top_text := s.top_text
    bottom_text := s.bottom_text }

/-- `save_settings` (`POST /api/settings`), in the source's evaluation order:
`float(payload.get("threshold") or 0)` first (may raise on an ill-typed or
unconvertible field), then `int(round(threshold * 100))` (raises on an
infinite or NaN threshold), then the position normalization, then the four
`(... or d).strip()` fields (each may raise on a truthy non-string), then
the banner-text backfill, upsert, commit, and the `{ok: true}` response. -/
def save_settings (db : Db) (shop : String) (payload : List (String × Json)) :
    Except PyError (Db × Bool) :=
  let row := (db.settings shop).getD freshSettings
  match pyFloat (getOr payload "threshold" (.num ⟨0, 0⟩)) with
  | .error e => .error e
  | .ok threshold =>
    match pyRoundPy (fmulPy threshold (.finite dbl100)) with
    | .error e => .error e
    | .ok threshold_cents =>
      let position : String := if isStrEq (jget payload "position") "bottom" then "bottom" else "top"
      match pyStrStrip (getOr payload "text_top" (.str "")) with
      | .error e => .error e
      | .ok top_text =>
        match pyStrStrip (getOr payload "text_bottom" (.str "")) with
        | .error e => .error e
        | .ok bottom_text =>
          match pyStrStrip (getOr payload "bg" (.str "#111827")) with
          | .error e => .error e
          | .ok bg =>
            match pyStrStrip (getOr payload "fg" (.str "#ffffff")) with
            | .error e => .error e
            | .ok fg =>
              let banner_text : Option String := some (orStr row.banner_text defaultBannerText)
              let row' : SettingsRow :=
                { threshold_cents := some threshold_cents
                  banner_text := banner_text
                  bg := some bg
                  fg := some fg
                  position := some position
                  top_text := some top_text
                  bottom_text := some bottom_text }
              .ok (⟨db.shops, upd db.settings shop row'⟩, true)

/-! ### OAuth flow (`GET /install`, `GET /callback`)

`STATE_CACHE` is the process-wide Python dict mapping shop domain to the
random nonce.  `secrets.token_urlsafe(32)` is external randomness, so the
generated nonce is a parameter of `install`.  The server-to-server token
exchange and the script-tag/webhook registrations are calls to the Shopify
platform (external collaborators); the exchange outcome is a parameter of
`callback` and the post-commit registrations do not touch local state. -/

/-- The in-memory `STATE_CACHE` dict: shop domain to stored nonce. -/
def StateCache : Type := String → Option String

/-- The redirect issued by `/install`: the authorize URL carries the shop and
the state token (client id, scopes and callback URL are fixed env config and
not needed by any claim). -/
structure AuthorizeRedirect where
  shop : String
  state : String
deriving DecidableEq, Repr

/-- `install` (`GET /install?shop=`): reject a shop not ending in
`.myshopify.com` with 400, else store the fresh nonce in the cache and
redirect to the authorize URL. -/
def install (cache : StateCache) (shop : String) (nonce : String) :
    Except HttpException (StateCache × AuthorizeRedirect) :=
  if ¬ strEndsWith shop ".myshopify.com" then
    .error ⟨400, "Invalid shop parameter"⟩
  else
    .ok (upd cache shop nonce, ⟨shop, nonce⟩)

/-- The state check at the top of `callback`:
`saved = STATE_CACHE.get(shop); if not saved or saved != state: raise`.
`not saved` is true for a missing entry and for an empty stored string. -/
def callbackStateCheck (cache : StateCache) (shop state : String) : Bool :=
  match cache shop with
  | none => false
  | some saved => if saved = "" then false else if saved = state then true else false

/-- The database mutation `callback` commits on success: upsert the shop row
(update token and clear `uninstalled`, or insert a new row whose column
defaults set `uninstalled = False` and `installed_at = now`), and insert a
default settings row only when none exists. -/
def callbackDbStep (db : Db) (shop token : String) (now : ℕ) : Db :=
  let shops :=
    match db.shops shop with
    | some row => upd db.shops shop { row with access_token := token, uninstalled := false }
    | none => upd db.shops shop ⟨token, now, false⟩
  let settings :=
    match db.settings shop with
    | some _ => db.settings
    | none => upd db.settings shop defaultSettingsRow
  ⟨shops, settings⟩

/-- `callback` (`GET /callback?shop=&code=&state=`): state check (400 on
mismatch or absence — the cache is read with `.get` and never mutated here),
then the token exchange (`exchange` stands for `_exchange_token(shop, code)`),
then the committed upsert.  The subsequent script-tag and webhook registration
calls go to the platform and leave cache and database untouched. -/
def callback (cache : StateCache) (db : Db) (shop code state : String)
    (exchange : Except HttpException String) (now : ℕ) :
    Except HttpException (StateCache × Db × String) :=
  if ¬ callbackStateCheck cache shop state then
    .error ⟨400, "Invalid or missing OAuth state"⟩
  else
    match exchange with
    | .error e => .error e
    | .ok token => .ok (cache, callbackDbStep db shop token now, token)

/-! ### SHA-256, HMAC and base64 (the webhook signature pipeline)

`_verify_webhook_hmac` computes
`base64.b64encode(hmac.new(secret, body, hashlib.sha256).digest())` and
compares it to the header.  The hash is implemented here bit-for-bit (FIPS
180-4) over byte lists, with 32-bit words as naturals reduced mod `2 ^ 32`. -/

/-- The literals the generator embeds into the script:
`THRESHOLD_CENTS`, `POLL_MS`, `TOP_TEXT`, `BOTTOM_TEXT`, `BG`, `FG`,
`POSITION`. -/
structure WidgetConfig where
  thresholdCents : ℤ
  pollMs : ℕ
  topText : String
  bottomText : String
  bg : String
  fg : String
  position : String
deriving DecidableEq, Repr

/-- The generator's default configuration (no shop parameter, or no settings
row).  `POLL_MS` is the hard-coded `var POLL_MS = 2000;` of the script. -/
def defaultWidgetConfig : WidgetConfig :=
  ⟨5000, 2000, defaultBannerText, defaultBannerText, "#111827", "#ffffff", "top"⟩

/-- The defaults-then-override block at the top of `widget_js`: each field is
`s.field or default`, and both text variants fall back through
`s.banner_text or fallback_text`. -/
def widgetConfig (db : Db) (shop : Option String) : WidgetConfig :=
  match shop with
  | none => defaultWidgetConfig
  | some sh =>
      match db.settings sh with
      | none => defaultWidgetConfig
      | some s =>
          let fallback := orStr s.banner_text defaultBannerText
          { thresholdCents := orIntNZ s.threshold_cents 5000
            pollMs := 2000
            topText := orStr s.top_text fallback
            bottomText := orStr s.bottom_text fallback
            bg := orStr s.bg "#111827"
            fg := orStr s.fg "#ffffff"
            position := orStr s.position "top" }

/-- The HTTP response of `GET /widget.js`.  The body is the fixed script
skeleton instantiated with `config`; the handler has no raising path. -/
structure WidgetResponse where
  status : ℕ
  mediaType : String
  config : WidgetConfig
deriving DecidableEq, Repr

/-- `widget_js`: unconditionally status 200 with the JavaScript media type. -/
def widget_js (db : Db) (shop : Option String) : WidgetResponse :=
  ⟨200, "application/javascript; charset=utf-8", widgetConfig db shop⟩

/-- `BANNER_TEXT = POSITION === 'bottom' ? BOTTOM_TEXT : TOP_TEXT`. -/
def bannerTextOf (cfg : WidgetConfig) : String :=
  if cfg.position = "bottom" then cfg.bottomText else cfg.topText

/-- Whitespace as matched by the `\s` of the placeholder regex (the app's
templates only ever contain these). -/
def isJsWs (c : Char) : Bool :=
  c = ' ' || c = Char.ofNat 9 || c = Char.ofNat 10 || c = Char.ofNat 13

/-- Case-insensitive character comparison (the regex `i` flag). -/
def lowEq (a b : Char) : Bool := a.toLower = b.toLower

/-- Case-insensitively strip a pattern off the front of the input, returning
the remainder. -/
def stripCI : List Char → List Char → Option (List Char)
  | [], rest => some rest
  | _ :: _, [] => none
  | p :: ps, c :: cs => if lowEq p c then stripCI ps cs else none

/-- Try to match `\s*remaining\s*` followed by the closing brace, right after
an opening brace; return the rest of the input on a match. -/
def matchAfterBrace (cs : List Char) : Option (List Char) :=
  match stripCI "remaining".toList (cs.dropWhile isJsWs) with
  | none => none
  | some cs2 =>
      match cs2.dropWhile isJsWs with
      | c :: rest => if c = Char.ofNat 125 then some rest else none
      | [] => none

/-- Left-to-right global regex replace of the placeholder, as
`tpl.replace(/\x7b\s*remaining\s*\x7d/gi, repl)` does: each non-overlapping
occurrence of an opening brace, optional whitespace, `remaining` (any case),
optional whitespace, closing brace is replaced by `repl`; `repl` contains no
capture-group references (`$` followed by a digit is left literal by
JavaScript when the pattern has no groups), so it is inserted verbatim.  The
fuel is the input length; each step consumes at least one character. -/
def fillAux (repl : List Char) : ℕ → List Char → List Char
  | 0, cs => cs
  | _ + 1, [] => []
  | fuel + 1, c :: cs =>
      if c = Char.ofNat 123 then
        match matchAfterBrace cs with
        | some rest => repl ++ fillAux repl fuel rest
        | none => c :: fillAux repl fuel cs
      else c :: fillAux repl fuel cs

/-- The script's `fillTemplate(tpl, vars)` with `vars.remaining = repl`. -/
def fillTemplate (tpl repl : String) : String :=
  String.mk (fillAux repl.toList tpl.toList.length tpl.toList)

/-- Two-digit zero-padded rendering of a value below 100. -/
def pad2 (n : ℤ) : String := if n < 10 then "0" ++ toString n else toString n

/-- The script's `formatMoney(cents)` in its deterministic fallback form
`'$' + (cents/100).toFixed(2)` (the `Intl.NumberFormat` branch formats the
same amount with a locale-chosen currency symbol and is external to this
model; either way the produced text carries a currency symbol).  Exact for
the non-negative integer cent amounts the bar computes. -/
def formatMoney (cents : ℤ) : String :=
  "$" ++ toString (cents / 100) ++ "." ++ pad2 (cents % 100)

/-- What `updateBar` renders: the in-progress banner message, or the distinct
unlocked state (fixed celebration message and green bar). -/
inductive BarDisplay where
  | progressMsg (msg : String)
  | unlocked
deriving DecidableEq, Repr

/-- One `updateBar(totalCents)` step of the generated script. -/
structure BarUpdate where
  remainingCents : ℤ
  pct : ℚ
  display : BarDisplay
deriving DecidableEq, Repr

/-- `updateBar`: `remaining = Math.max(0, THRESHOLD_CENTS - total)`,
`pct = Math.max(0, Math.min(1, total / THRESHOLD_CENTS))`, then either the
filled template or the unlocked state once nothing remains.  Totals are the
integer cent amounts `/cart.js` reports; the division is exact rational
arithmetic, which agrees with the script's binary64 arithmetic on every
claim-relevant value. -/
def updateBar (thresholdCents : ℤ) (bannerText : String) (totalCents : ℤ) : BarUpdate :=
  let remaining : ℤ := max 0 (thresholdCents - totalCents)
  let pct : ℚ := max 0 (min 1 ((totalCents : ℚ) / (thresholdCents : ℚ)))
  { remainingCents := remaining
    pct := pct
    display :=
      if 0 < remaining then .progressMsg (fillTemplate bannerText (formatMoney remaining))
      else .unlocked }

/-! ### Helper lemmas -/

/-- Rounding a half-integer ties to the even neighbour. -/
theorem roundHalfEvenInt_tie (k : ℤ) :
    roundHalfEvenInt ((k : ℚ) + 1 / 2) = if k % 2 = 0 then k else k + 1 := by
  have hf : ⌊(k : ℚ) + 1 / 2⌋ = k := by
    rw [add_comm, Int.floor_add_int, Int.floor_eq_zero_iff.mpr (by constructor <;> norm_num)]
    ring
  unfold roundHalfEvenInt
  rw [hf]
  have hr : (k : ℚ) + 1 / 2 - (k : ℚ) = 1 / 2 := by ring
  rw [hr, if_neg (lt_irrefl _), if_neg (lt_irrefl _)]

/-- A rational strictly within a half of an integer rounds to that integer. -/
theorem roundHalfEvenInt_nearest (x : ℚ) (k : ℤ) (h : |x - (k : ℚ)| < 1 / 2) :
    roundHalfEvenInt x = k := by
  rw [abs_sub_lt_iff] at h
  obtain ⟨h1, h2⟩ := h
  unfold roundHalfEvenInt
  rcases le_or_lt (k : ℚ) x with hle | hlt
  · have hf : ⌊x⌋ = k := by
      rw [Int.floor_eq_iff]
      exact ⟨hle, by linarith⟩
    rw [hf]
    have hn1 : ¬ (1 / 2 < x - (k : ℚ)) := by linarith
    have hn2 : x - (k : ℚ) < 1 / 2 := by linarith
    rw [if_neg hn1, if_pos hn2]
  · have hf : ⌊x⌋ = k - 1 := by
      rw [Int.floor_eq_iff]
      push_cast
      constructor <;> linarith
    rw [hf]
    have hgt : 1 / 2 < x - ((k - 1 : ℤ) : ℚ) := by push_cast; linarith
    rw [if_pos hgt]
    omega

/-- A one-key threshold payload whose conversion stays inside the finite
double range stores exactly `pyRound` of the double product with 100. -/
theorem save_settings_threshold_only (db : Db) (shop : String) (x : Decimal)
    (hfin : fmulPy (toPyFloat x) (PyFloat.finite dbl100)
      = PyFloat.finite (fmul (toDouble x) dbl100)) :
    (save_settings db shop [("threshold", Json.num x)]).map
        (fun r => (r.1.settings shop).map SettingsRow.threshold_cents)
      = .ok (some (some (pyRound (fmul (toDouble x) dbl100)))) := by
  by_cases hx : x.m = 0
  · simp [save_settings, getOr, jget, truthy, hx, pyFloat, toPyFloat, fmulPy, pyRoundPy,
      pyStrStrip, upd, Except.map, toDouble, fmul]
  · simp [save_settings, getOr, jget, truthy, hx, pyFloat, hfin, pyRoundPy,
      pyStrStrip, upd, Except.map]

/-- Python's `round` on the exact dyadic value a double denotes is the
half-even rounding of its rational value. -/
theorem pyRound_eq (d : Dbl) : pyRound d = roundHalfEvenInt d.toRat := by
  unfold pyRound roundHalfEvenInt Dbl.toRat pow2z
  by_cases he : 0 ≤ d.e
  · rw [if_pos he, if_pos he]
    have hcast : (d.m : ℚ) * ((2 ^ d.e.toNat : ℕ) : ℚ) = ((d.m * 2 ^ d.e.toNat : ℤ) : ℚ) := by
      push_cast
      ring
    rw [hcast, Int.floor_intCast]
    norm_num
  · rw [if_neg he, if_neg he]
    have hx : (d.m : ℚ) * (1 / ((2 ^ (-d.e).toNat : ℕ) : ℚ))
        = (d.m : ℚ) / ((2 ^ (-d.e).toNat : ℕ) : ℚ) := by
      ring
    rw [hx, Rat.floor_intCast_div_natCast]
    have hD0 : (0 : ℤ) < 2 ^ (-d.e).toNat := by positivity
    have hDQ : (0 : ℚ) < ((2 ^ (-d.e).toNat : ℕ) : ℚ) := by positivity
    have hcast : ((2 ^ (-d.e).toNat : ℕ) : ℤ) = 2 ^ (-d.e).toNat := by push_cast; ring
    rw [hcast]
    have hmodQ := congrArg (fun z : ℤ => (z : ℚ)) (Int.ediv_add_emod d.m (2 ^ (-d.e).toNat))
    push_cast at hmodQ
    have hfrac : (d.m : ℚ) / ((2 ^ (-d.e).toNat : ℕ) : ℚ)
          - ((d.m / 2 ^ (-d.e).toNat : ℤ) : ℚ)
        = ((d.m % 2 ^ (-d.e).toNat : ℤ) : ℚ) / ((2 ^ (-d.e).toNat : ℕ) : ℚ) := by
      field_simp
      push_cast
      linarith
    rw [hfrac]
    have e1 : (1 / 2 < ((d.m % 2 ^ (-d.e).toNat : ℤ) : ℚ) / ((2 ^ (-d.e).toNat : ℕ) : ℚ))
        ↔ ((2 : ℤ) ^ (-d.e).toNat < 2 * (d.m % 2 ^ (-d.e).toNat)) := by
      rw [lt_div_iff hDQ]
      constructor
      · intro h
        have : ((2 ^ (-d.e).toNat : ℕ) : ℚ) < 2 * ((d.m % 2 ^ (-d.e).toNat : ℤ) : ℚ) := by
          linarith
        push_cast at this
        exact_mod_cast this
      · intro h
        have : ((2 ^ (-d.e).toNat : ℤ) : ℚ) < ((2 * (d.m % 2 ^ (-d.e).toNat) : ℤ) : ℚ) := by
          exact_mod_cast h
        push_cast at this
        push_cast
        linarith
    have e2 : (((d.m % 2 ^ (-d.e).toNat : ℤ) : ℚ) / ((2 ^ (-d.e).toNat : ℕ) : ℚ) < 1 / 2)
        ↔ (2 * (d.m % 2 ^ (-d.e).toNat) < (2 : ℤ) ^ (-d.e).toNat) := by
      rw [div_lt_iff hDQ]
      constructor
      · intro h
        have : 2 * ((d.m % 2 ^ (-d.e).toNat : ℤ) : ℚ) < ((2 ^ (-d.e).toNat : ℕ) : ℚ) := by
          linarith
        push_cast at this
        exact_mod_cast this
      · intro h
        have : ((2 * (d.m % 2 ^ (-d.e).toNat) : ℤ) : ℚ) < ((2 ^ (-d.e).toNat : ℤ) : ℚ) := by
          exact_mod_cast h
        push_cast at this
        push_cast
        linarith
    simp only [e1, e2]

/-- A successful state check makes `callback` return the committed upsert and
the unchanged cache. -/
theorem callback_ok_of_state (cache : StateCache) (db : Db) (shop code state tok : String)
    (now : ℕ) (h1 : cache shop = some state) (h2 : state ≠ "") :
    callback cache db shop code state (.ok tok) now
      = .ok (cache, callbackDbStep db shop tok now, tok) := by
  unfold callback callbackStateCheck
  rw [h1]
  simp [h2]

/-- Claim C2: the claimed template sanitization does not exist in the code.
`fillTemplate` replaces only the `\x7bremaining\x7d` token and leaves an
adjacent currency symbol in place, while the substituted value already
carries a currency symbol, so the app's own default banner template
(`"You're $\x7bremaining\x7d away from FREE shipping!"`) renders a doubled
symbol and differs from the same template authored without the `$`. -/
theorem c2_no_currency_normalization :
    fillTemplate defaultBannerText (formatMoney 2000)
      = "You\x27re $$20.00 away from FREE shipping!"
  ∧ fillTemplate "You\x27re \x7bremaining\x7d away from FREE shipping!" (formatMoney 2000)
      = "You\x27re $20.00 away from FREE shipping!"
  ∧ fillTemplate defaultBannerText (formatMoney 2000)
      ≠ fillTemplate "You\x27re \x7bremaining\x7d away from FREE shipping!" (formatMoney 2000) := by
  refine ⟨by decide, by decide, by decide⟩

/-- Claim C6: `updateBar` computes `remaining = max(0, threshold - total)`
and `progress = clamp(total/threshold, 0, 1)`, switches to the unlocked state
exactly when nothing remains, and takes the claimed values at the three
concrete points (threshold 5000 with totals 3000, 5000, 6000). -/
theorem c6_progress_computation (T total : ℤ) (hT : 0 < T) (txt : String) :
    (updateBar T txt total).remainingCents = max 0 (T - total)
  ∧ (updateBar T txt total).pct = min 1 (max 0 ((total : ℚ) / (T : ℚ)))
  ∧ ((updateBar T txt total).display = BarDisplay.unlocked ↔ T ≤ total)
  ∧ (updateBar 5000 txt 3000).remainingCents = 2000
  ∧ (updateBar 5000 txt 3000).pct = 3 / 5
  ∧ (updateBar 5000 txt 5000).remainingCents = 0
  ∧ (updateBar 5000 txt 5000).display = BarDisplay.unlocked
  ∧ (updateBar 5000 txt 6000).remainingCents = 0
  ∧ (updateBar 5000 txt 6000).pct = 1
  ∧ (updateBar 5000 txt 6000).display = BarDisplay.unlocked := by
  refine ⟨rfl, ?_, ?_, rfl, by norm_num [updateBar], rfl, rfl, rfl, by norm_num [updateBar], rfl⟩
  · show max 0 (min 1 ((total : ℚ) / (T : ℚ))) = min 1 (max 0 ((total : ℚ) / (T : ℚ)))
    rw [max_min_distrib_left]
    norm_num
  · show (if 0 < max 0 (T - total) then
        BarDisplay.progressMsg (fillTemplate txt (formatMoney (max 0 (T - total))))
      else BarDisplay.unlocked) = BarDisplay.unlocked ↔ T ≤ total
    by_cases h : 0 < max 0 (T - total)
    · rw [if_pos h]
      simp only [reduceCtorEq, false_iff]
      omega
    · rw [if_neg h]
      simp only [true_iff]
      omega

/-- Claim C6 witness at threshold 5000, total 3000. -/
theorem c6_progress_computation_witness :
    (0 : ℤ) < 5000
  ∧ (updateBar 5000 defaultBannerText 3000).remainingCents = max 0 (5000 - 3000) :=
  ⟨by decide, (c6_progress_computation 5000 3000 (by decide) defaultBannerText).1⟩

/-- Claim C8: `widget_js` is total and always answers 200 with the
JavaScript media type; with no shop parameter, or a shop without a settings
row, the embedded configuration is exactly the hard-coded defaults.  (The
body is the fixed script skeleton instantiated with these literals; its
JavaScript grammar is outside the embedding.) -/
theorem c8_widget_always_succeeds (db : Db) (shop : Option String) :
    (widget_js db shop).status = 200
  ∧ (widget_js db shop).mediaType = "application/javascript; charset=utf-8"
  ∧ (widget_js db none).config = defaultWidgetConfig
  ∧ (∀ sh, db.settings sh = none → (widget_js db (some sh)).config = defaultWidgetConfig) := by
  refine ⟨rfl, rfl, rfl, ?_⟩
  intro sh h
  simp [widget_js, widgetConfig, h]

/-- Claim C8 witness: a shop with no settings row still gets the default
configuration. -/
theorem c8_widget_always_succeeds_witness :
    emptyDb.settings "shop.myshopify.com" = none
  ∧ (widget_js emptyDb (some "shop.myshopify.com")).config = defaultWidgetConfig :=
  ⟨rfl, (c8_widget_always_succeeds emptyDb (some "shop.myshopify.com")).2.2.2
      "shop.myshopify.com" rfl⟩

/-- Claim C9 counterexample: the generated script's poll interval is the
hard-coded `var POLL_MS = 2000;`, not the claimed default of 2500
milliseconds. -/
theorem c9_poll_interval_counterexample :
    (widget_js emptyDb none).config.pollMs = 2000
  ∧ (widget_js emptyDb none).config.pollMs ≠ 2500 := by
  refine ⟨rfl, by decide⟩

/-- Claim C9 (amended): the generated widget script polls the cart-total
source at a fixed, hard-coded interval of 2000 milliseconds, whatever the
shop and stored settings. -/
theorem c9_poll_interval_fixed_2000 (db : Db) (shop : Option String) :
    (widget_js db shop).config.pollMs = 2000 := by
  cases shop with
  | none => rfl
  | some sh =>
      simp only [widget_js, widgetConfig]
      cases db.settings sh <;> rfl

/-- Claim C10: a stored `threshold_cents = 0` is falsy to the `or` fallback
chains, so `get_settings` reports 5000 and the widget embeds 5000, exactly as
when no settings row is stored at all. -/
theorem c10_zero_threshold_as_unset (db : Db) (shop : String) (row : SettingsRow)
    (hr : db.settings shop = some row) (hz : row.threshold_cents = some 0) :
    (get_settings db shop).threshold_cents = 5000
  ∧ (widget_js db (some shop)).config.thresholdCents = 5000
  ∧ (get_settings db shop).threshold_cents = (get_settings emptyDb shop).threshold_cents
  ∧ (widget_js db (some shop)).config.thresholdCents
      = (widget_js emptyDb (some shop)).config.thresholdCents := by
  refine ⟨?_, ?_, ?_, ?_⟩ <;>
    simp [get_settings, widget_js, widgetConfig, defaultWidgetConfig, emptyDb, hr, hz,
      freshSettings, orIntNZ]

/-- Claim C10 witness: a concrete database whose settings row stores a zero
threshold. -/
theorem c10_zero_threshold_as_unset_witness :
    (Db.mk (fun _ => none)
        (upd (fun _ => none) "z.myshopify.com" { freshSettings with threshold_cents := some 0 })).settings
        "z.myshopify.com" = some { freshSettings with threshold_cents := some 0 }
  ∧ ({ freshSettings with threshold_cents := some (0 : ℤ) } : SettingsRow).threshold_cents = some 0
  ∧ (get_settings
        (Db.mk (fun _ => none)
          (upd (fun _ => none) "z.myshopify.com" { freshSettings with threshold_cents := some 0 }))
        "z.myshopify.com").threshold_cents = 5000 := by
  refine ⟨by simp [upd], rfl, ?_⟩
  exact (c10_zero_threshold_as_unset _ "z.myshopify.com"
    { freshSettings with threshold_cents := some 0 } (by simp [upd]) rfl).1

/-- The state cache after a successful example `install`. -/
def exampleCache : StateCache := upd (fun _ => none) "x.myshopify.com" "nonce1"

/-- Claim C1 counterexample: `callback` reads the cached state with `.get`
and never removes it, so the state token is not consumed: after a first
successful callback the cache still holds the nonce (the handler returns the
cache unchanged) and a second callback presenting the same state succeeds
instead of failing with the auth error the claim requires. -/
theorem c1_state_reuse_counterexample :
    install (fun _ => none) "x.myshopify.com" "nonce1"
      = .ok (exampleCache, ⟨"x.myshopify.com", "nonce1"⟩)
  ∧ callback exampleCache emptyDb "x.myshopify.com" "code1" "nonce1" (.ok "tok1") 0
      = .ok (exampleCache, callbackDbStep emptyDb "x.myshopify.com" "tok1" 0, "tok1")
  ∧ exampleCache "x.myshopify.com" = some "nonce1"
  ∧ exceptOk (callback exampleCache emptyDb "x.myshopify.com" "code2" "nonce1" (.ok "tok2") 1)
      = true := by
  have h1 : exampleCache "x.myshopify.com" = some "nonce1" := by simp [exampleCache, upd]
  have h2 : ("nonce1" : String) ≠ "" := by decide
  refine ⟨rfl, callback_ok_of_state _ _ _ _ _ _ _ h1 h2, h1, ?_⟩
  rw [callback_ok_of_state _ _ _ _ _ _ _ h1 h2]
  rfl

/-- Claim C1 (amended): for every valid shop domain, the state stored by
`begin_install` is accepted by `complete_install` whenever it is nonempty and
matches, and a mismatch or absent (or empty) stored state yields the
invalid-OAuth-state rejection; but the state is not consumed — a successful
callback returns the cache unchanged, so the same state is accepted
repeatedly until overwritten. -/
theorem c1_state_check_behavior (cache : StateCache) (db : Db)
    (shop code state tok : String) (now : ℕ) :
    (cache shop = none →
        callback cache db shop code state (.ok tok) now
          = .error ⟨400, "Invalid or missing OAuth state"⟩)
  ∧ (∀ saved, cache shop = some saved → saved ≠ state →
        callback cache db shop code state (.ok tok) now
          = .error ⟨400, "Invalid or missing OAuth state"⟩)
  ∧ (cache shop = some "" →
        callback cache db shop code state (.ok tok) now
          = .error ⟨400, "Invalid or missing OAuth state"⟩)
  ∧ (cache shop = some state → state ≠ "" →
        callback cache db shop code state (.ok tok) now
          = .ok (cache, callbackDbStep db shop tok now, tok)) := by
  refine ⟨?_, ?_, ?_, fun h1 h2 => callback_ok_of_state cache db shop code state tok now h1 h2⟩
  · intro h
    simp [callback, callbackStateCheck, h]
  · intro saved hs hne
    simp only [callback, callbackStateCheck]
    rw [hs]
    by_cases he : saved = ""
    · simp [he]
    · simp [he, hne]
  · intro h
    simp [callback, callbackStateCheck, h]

/-- Claim C1 witness: the amended acceptance case at a concrete cache. -/
theorem c1_state_check_behavior_witness :
    exampleCache "x.myshopify.com" = some "nonce1"
  ∧ ("nonce1" : String) ≠ ""
  ∧ callback exampleCache emptyDb "x.myshopify.com" "code9" "nonce1" (.ok "tok9") 3
      = .ok (exampleCache, callbackDbStep emptyDb "x.myshopify.com" "tok9" 3, "tok9") := by
  refine ⟨by simp [exampleCache, upd], by decide, ?_⟩
  exact (c1_state_check_behavior exampleCache emptyDb "x.myshopify.com" "code9" "nonce1" "tok9"
    3).2.2.2 (by simp [exampleCache, upd]) (by decide)

/-- Claim C7: a successful callback commits exactly `callbackDbStep`: the
shop row carries the fresh token with the uninstalled flag cleared, a
settings row is guaranteed to exist, an already-present settings row is kept
bit-for-bit, a missing one is created with the column defaults, and rows of
every other shop are untouched. -/
theorem c7_callback_upsert_frame (cache : StateCache) (db : Db)
    (shop code state tok : String) (now : ℕ) :
    (cache shop = some state → state ≠ "" →
        callback cache db shop code state (.ok tok) now
          = .ok (cache, callbackDbStep db shop tok now, tok))
  ∧ ((callbackDbStep db shop tok now).shops shop).map ShopRow.access_token = some tok
  ∧ ((callbackDbStep db shop tok now).shops shop).map ShopRow.uninstalled = some false
  ∧ ((callbackDbStep db shop tok now).settings shop).isSome = true
  ∧ (∀ s0, db.settings shop = some s0 →
        (callbackDbStep db shop tok now).settings shop = some s0)
  ∧ (db.settings shop = none →
        (callbackDbStep db shop tok now).settings shop = some defaultSettingsRow)
  ∧ (∀ other, other ≠ shop →
        (callbackDbStep db shop tok now).shops other = db.shops other
      ∧ (callbackDbStep db shop tok now).settings other = db.settings other) := by
  refine ⟨fun h1 h2 => callback_ok_of_state cache db shop code state tok now h1 h2,
    ?_, ?_, ?_, ?_, ?_, ?_⟩
  · cases hsh : db.shops shop <;> simp [callbackDbStep, upd, hsh]
  · cases hsh : db.shops shop <;> simp [callbackDbStep, upd, hsh]
  · cases hst : db.settings shop <;> simp [callbackDbStep, upd, hst]
  · intro s0 h
    simp [callbackDbStep, h]
  · intro h
    simp [callbackDbStep, h, upd]
  · intro other hne
    constructor <;> (cases hsh : db.shops shop <;> cases hst : db.settings shop <;>
      simp [callbackDbStep, upd, hsh, hst, hne])

/-- A database holding a customized settings row, for the C7 witness. -/
def exampleDb7 : Db :=
  ⟨fun _ => none, upd (fun _ => none) "y.myshopify.com" { freshSettings with top_text := some "custom" }⟩

/-- Claim C7 witness: re-install over an existing settings row leaves the row
exactly as stored. -/
theorem c7_callback_upsert_frame_witness :
    exampleDb7.settings "y.myshopify.com" = some { freshSettings with top_text := some "custom" }
  ∧ (callbackDbStep exampleDb7 "y.myshopify.com" "tok9" 7).settings "y.myshopify.com"
      = some { freshSettings with top_text := some "custom" } := by
  refine ⟨by simp [exampleDb7, upd], ?_⟩
  exact (c7_callback_upsert_frame (fun _ => none) exampleDb7 "y.myshopify.com" "c" "st" "tok9"
    7).2.2.2.2.1 { freshSettings with top_text := some "custom" } (by simp [exampleDb7, upd])

/-- A well-typed JSON string field always strips successfully. -/
theorem pyStrStrip_isOk (v : Json) (h : isStrJson v = true) : exceptOk (pyStrStrip v) = true := by
  cases v <;> first | rfl | simp [isStrJson] at h

set_option maxRecDepth 100000 in
/-- Claim C4 counterexample: `save_settings` raises (surfacing as a 500, not
a success) on authorized requests — a `ValueError` from `float("abc")` on a
non-numeric string threshold, and an uncaught `OverflowError` on the JSON
number `1e309`, which is out of the binary64 range, so the handler does not
succeed for every payload. -/
theorem c4_save_settings_counterexample :
    save_settings emptyDb "s.myshopify.com" [("threshold", Json.str "abc")]
      = .error (PyError.valueError "could not convert string to float")
  ∧ exceptOk (save_settings emptyDb "s.myshopify.com" [("threshold", Json.str "abc")]) = false
  ∧ save_settings emptyDb "s.myshopify.com" [("threshold", Json.num ⟨10 ^ 309, 0⟩)]
      = .error (PyError.overflowError "cannot convert float infinity to integer") := by
  refine ⟨rfl, rfl, ?_⟩
  have hinf : toPyFloat ⟨10 ^ 309, 0⟩ = PyFloat.inf false := by decide
  have hpf : pyFloat (getOr [("threshold", Json.num ⟨10 ^ 309, 0⟩)] "threshold" (Json.num ⟨0, 0⟩))
      = .ok (PyFloat.inf false) := by
    rw [show getOr [("threshold", Json.num ⟨10 ^ 309, 0⟩)] "threshold" (Json.num ⟨0, 0⟩)
        = Json.num ⟨10 ^ 309, 0⟩ from rfl]
    rw [show pyFloat (Json.num ⟨10 ^ 309, 0⟩) = .ok (toPyFloat ⟨10 ^ 309, 0⟩) from rfl, hinf]
  simp [save_settings, hpf, fmulPy, pyRoundPy, dbl100]

/-- Claim C4 (amended): for an authorized shop, `save_settings` performs the
upsert and returns `ok: true` for every payload whose fields are well-typed
after the `or`-defaulting — `threshold` accepted by `float` with a value
whose conversion to cents succeeds (so neither NaN, an infinity, nor an
out-of-range magnitude), the four text/color fields strings; a truthy field
outside that region makes the handler raise instead (a server error,
independent of authorization). -/
theorem c4_save_settings_welltyped_total (db : Db) (shop : String)
    (payload : List (String × Json))
    (h1 : exceptOk (pyFloat (getOr payload "threshold" (Json.num ⟨0, 0⟩))) = true)
    (h1b : ∀ t, pyFloat (getOr payload "threshold" (Json.num ⟨0, 0⟩)) = .ok t →
        exceptOk (pyRoundPy (fmulPy t (PyFloat.finite dbl100))) = true)
    (h2 : isStrJson (getOr payload "text_top" (Json.str "")) = true)
    (h3 : isStrJson (getOr payload "text_bottom" (Json.str "")) = true)
    (h4 : isStrJson (getOr payload "bg" (Json.str "#111827")) = true)
    (h5 : isStrJson (getOr payload "fg" (Json.str "#ffffff")) = true) :
    (save_settings db shop payload).map (fun r => ((r.1.settings shop).isSome, r.2))
      = .ok (true, true) := by
  unfold save_settings
  cases hv : pyFloat (getOr payload "threshold" (Json.num ⟨0, 0⟩)) with
  | error e => rw [hv] at h1; simp [exceptOk] at h1
  | ok q =>
    cases hr : pyRoundPy (fmulPy q (PyFloat.finite dbl100)) with
    | error e =>
        have hk := h1b q hv
        rw [hr] at hk
        simp [exceptOk] at hk
    | ok tc =>
      cases hs1 : pyStrStrip (getOr payload "text_top" (Json.str "")) with
      | error e =>
          have hk := pyStrStrip_isOk _ h2
          rw [hs1] at hk
          simp [exceptOk] at hk
      | ok t1 =>
        cases hs2 : pyStrStrip (getOr payload "text_bottom" (Json.str "")) with
        | error e =>
            have hk := pyStrStrip_isOk _ h3
            rw [hs2] at hk
            simp [exceptOk] at hk
        | ok t2 =>
          cases hs3 : pyStrStrip (getOr payload "bg" (Json.str "#111827")) with
          | error e =>
              have hk := pyStrStrip_isOk _ h4
              rw [hs3] at hk
              simp [exceptOk] at hk
          | ok t3 =>
            cases hs4 : pyStrStrip (getOr payload "fg" (Json.str "#ffffff")) with
            | error e =>
                have hk := pyStrStrip_isOk _ h5
                rw [hs4] at hk
                simp [exceptOk] at hk
            | ok t4 =>
              simp [hv, hr, hs1, hs2, hs3, hs4, upd, Except.map]

/-- A well-typed example payload for the C4 witness. -/
def examplePayload : List (String × Json) :=
  [("threshold", Json.num ⟨50, 0⟩), ("position", Json.str "bottom"), ("text_top", Json.str " Hi "),
   ("text_bottom", Json.str ""), ("bg", Json.str "#000"), ("fg", Json.str "#fff")]

/-- Claim C4 witness: the amended success case at a concrete payload (its
threshold converts to a finite double whose rounding succeeds). -/
theorem c4_save_settings_welltyped_total_witness :
    exceptOk (pyFloat (getOr examplePayload "threshold" (Json.num ⟨0, 0⟩))) = true
  ∧ exceptOk (pyRoundPy (fmulPy (toPyFloat ⟨50, 0⟩) (PyFloat.finite dbl100))) = true
  ∧ isStrJson (getOr examplePayload "text_top" (Json.str "")) = true
  ∧ isStrJson (getOr examplePayload "text_bottom" (Json.str "")) = true
  ∧ isStrJson (getOr examplePayload "bg" (Json.str "#111827")) = true
  ∧ isStrJson (getOr examplePayload "fg" (Json.str "#ffffff")) = true
  ∧ (save_settings emptyDb "s.myshopify.com" examplePayload).map
        (fun r => ((r.1.settings "s.myshopify.com").isSome, r.2)) = .ok (true, true) :=
  ⟨rfl, rfl, rfl, rfl, rfl, rfl,
    c4_save_settings_welltyped_total emptyDb "s.myshopify.com" examplePayload rfl
      (fun t ht => by
        rw [show pyFloat (getOr examplePayload "threshold" (Json.num ⟨0, 0⟩))
            = Except.ok (toPyFloat ⟨50, 0⟩) from rfl] at ht
        cases ht
        rfl)
      rfl rfl rfl rfl⟩

/-- Claim C3: `save_settings` stores `int(round(threshold * 100))` computed
in binary64: the decimal payload value is taken to the nearest double, the
product with 100 is rounded once more as a double, and Python's `round`
rounds that value to the nearest integer with ties to even — a single fixed
round-half rule; in particular 49.999 is stored as 5000 cents.  The
quantified conjuncts are guarded by the conversion staying inside the finite
double range (the guard forced by modelling binary64 overflow: an infinite
threshold raises at `round` instead of storing); every dollar amount the
claim concerns satisfies it, as the witness shows. -/
theorem c3_money_rounding :
    (save_settings emptyDb "s.myshopify.com" [("threshold", Json.num ⟨49999, 3⟩)]).map
        (fun r => (r.1.settings "s.myshopify.com").map SettingsRow.threshold_cents)
      = .ok (some (some 5000))
  ∧ (∀ (db : Db) (shop : String) (x : Decimal) (k : ℤ),
        fmulPy (toPyFloat x) (PyFloat.finite dbl100)
          = PyFloat.finite (fmul (toDouble x) dbl100) →
        (fmul (toDouble x) dbl100).toRat = (k : ℚ) + 1 / 2 →
        (save_settings db shop [("threshold", Json.num x)]).map
            (fun r => (r.1.settings shop).map SettingsRow.threshold_cents)
          = .ok (some (some (if k % 2 = 0 then k else k + 1))))
  ∧ (∀ (db : Db) (shop : String) (x : Decimal) (k : ℤ),
        fmulPy (toPyFloat x) (PyFloat.finite dbl100)
          = PyFloat.finite (fmul (toDouble x) dbl100) →
        |(fmul (toDouble x) dbl100).toRat - (k : ℚ)| < 1 / 2 →
        (save_settings db shop [("threshold", Json.num x)]).map
            (fun r => (r.1.settings shop).map SettingsRow.threshold_cents)
          = .ok (some (some k))) := by
  refine ⟨?_, ?_, ?_⟩
  · rw [save_settings_threshold_only _ _ _ (by decide)]
    have hv : pyRound (fmul (toDouble ⟨49999, 3⟩) dbl100) = 5000 := by decide
    rw [hv]
  · intro db shop x k hfin h
    rw [save_settings_threshold_only _ _ _ hfin, pyRound_eq, h, roundHalfEvenInt_tie]
  · intro db shop x k hfin h
    rw [save_settings_threshold_only _ _ _ hfin, pyRound_eq, roundHalfEvenInt_nearest _ k h]

/-- Claim C3 witness: a half-cent input that lands exactly on a tie (0.005
dollars: the double product is exactly 1/2, stored as the even neighbour 0)
and an exact product (50 dollars stored as 5000). -/
theorem c3_money_rounding_witness :
    fmulPy (toPyFloat ⟨5, 3⟩) (PyFloat.finite dbl100)
      = PyFloat.finite (fmul (toDouble ⟨5, 3⟩) dbl100)
  ∧ (fmul (toDouble ⟨5, 3⟩) dbl100).toRat = ((0 : ℤ) : ℚ) + 1 / 2
  ∧ (save_settings emptyDb "s.myshopify.com" [("threshold", Json.num ⟨5, 3⟩)]).map
        (fun r => (r.1.settings "s.myshopify.com").map SettingsRow.threshold_cents)
      = .ok (some (some 0))
  ∧ fmulPy (toPyFloat ⟨50, 0⟩) (PyFloat.finite dbl100)
      = PyFloat.finite (fmul (toDouble ⟨50, 0⟩) dbl100)
  ∧ |(fmul (toDouble ⟨50, 0⟩) dbl100).toRat - ((5000 : ℤ) : ℚ)| < 1 / 2
  ∧ (save_settings emptyDb "s.myshopify.com" [("threshold", Json.num ⟨50, 0⟩)]).map
        (fun r => (r.1.settings "s.myshopify.com").map SettingsRow.threshold_cents)
      = .ok (some (some 5000)) := by
  have h1 : fmul (toDouble ⟨5, 3⟩) dbl100 = ⟨1, -1⟩ := by decide
  have h2 : (fmul (toDouble ⟨5, 3⟩) dbl100).toRat = ((0 : ℤ) : ℚ) + 1 / 2 := by
    rw [h1]
    norm_num [Dbl.toRat, pow2z]
  have h3 : fmul (toDouble ⟨50, 0⟩) dbl100 = ⟨625, 3⟩ := by decide
  have h4 : |(fmul (toDouble ⟨50, 0⟩) dbl100).toRat - ((5000 : ℤ) : ℚ)| < 1 / 2 := by
    rw [h3]
    norm_num [Dbl.toRat, pow2z, show (3 : ℤ).toNat = 3 from rfl]
  refine ⟨by decide, h2, ?_, by decide, h4, ?_⟩
  · simpa using c3_money_rounding.2.1 emptyDb "s.myshopify.com" ⟨5, 3⟩ 0 (by decide) h2
  · exact c3_money_rounding.2.2 emptyDb "s.myshopify.com" ⟨50, 0⟩ 5000 (by decide) h4

end FreeShipBar
